import Mathlib

/-!
Shallow embedding of the PLC barcode-reader pipeline
(plc_barcode_reader.py): fixed-offset record decoding from a PLC data
block, Excel persistence, SAP XML export, SFTP transport with size
verification, and the staged process_box pipeline with acknowledge
writes.  External effects (PLC reads/writes, file system, SFTP) are
modelled by explicit environments recording the outcome of each call.
-/

namespace BarcodeReader

/-! ## Configuration constants (from the source header) -/

def BOX_LID_START : Nat := 94
def BOX_LID_LENGTH : Nat := 15
def PRODUCT_COUNT : Nat := 20
def BYTES_PER_PRODUCT : Nat := 60
def OFFSET_SPOOL : Nat := 0
def OFFSET_MATERIAL : Nat := 16
def OFFSET_MANUF_DATE : Nat := 24
def OFFSET_EXP_DATE : Nat := 32
def OFFSET_BATCH : Nat := 40
def OFFSET_SHOP_ORDER : Nat := 50
def RDA_VALUE : String := "1"
def START_VALUE : String := "R"

/-! ## Python string primitives used by read_plc_string -/

/-- Python whitespace characters in the ASCII range: the characters for
which str.isspace holds and which str.strip removes (tab through
carriage return, file/group/record/unit separators, and space). -/
def isPyWspace (c : Char) : Bool :=
  [9, 10, 11, 12, 13, 28, 29, 30, 31, 32].contains c.toNat

/-- bytes.decode with the ascii codec and errors ignore: bytes at or
above 128 are dropped, the rest become the corresponding characters. -/
def decodeAsciiIgnore (bs : List Nat) : List Char :=
  (bs.filter (fun b => decide (b < 128))).map Char.ofNat

/-- Remove the longest suffix of characters satisfying p. -/
def dropTrailingWhile (p : Char → Bool) (cs : List Char) : List Char :=
  (cs.reverse.dropWhile p).reverse

/-- Python str.rstrip with the null character: drop trailing NULs. -/
def rstripNull (cs : List Char) : List Char :=
  dropTrailingWhile (fun c => c == Char.ofNat 0) cs

/-- Python str.strip with no argument: drop leading and trailing
whitespace. -/
def pyStrip (cs : List Char) : List Char :=
  dropTrailingWhile isPyWspace (cs.dropWhile isPyWspace)

/-- The decode chain of read_plc_string:
decode ascii with errors ignored, rstrip NULs, strip whitespace. -/
def pyDecode (bs : List Nat) : String :=
  String.mk (pyStrip (rstripNull (decodeAsciiIgnore bs)))

/-- Python str.isspace: nonempty and every character is whitespace. -/
def pyIsSpace (s : String) : Bool :=
  !s.toList.isEmpty && s.toList.all isPyWspace

/-- Python str.isdigit (on the ASCII strings produced by decoding):
nonempty and every character is a decimal digit. -/
def pyIsDigitStr (s : String) : Bool :=
  !s.toList.isEmpty && s.toList.all Char.isDigit

/-! ## PLC raw block model -/

/-- The PLC data block as seen through client.db_read: mem gives the
byte at each address of DB3000, and readFails records which db_read
calls (start byte, length) raise an exception. -/
structure Plc where
  mem : Nat → Nat
  readFails : Nat → Nat → Bool

/-- client.db_read on DB_NUMBER: returns the len bytes starting at
start, or none when the call raises. -/
def db_read (plc : Plc) (start len : Nat) : Option (List Nat) :=
  if plc.readFails start len then none
  else some ((List.range len).map (fun i => plc.mem (start + i) % 256))

/-- read_plc_string: db_read the field, decode ascii ignoring invalid
bytes, rstrip NULs, strip whitespace; on any exception return "". -/
def read_plc_string (plc : Plc) (start len : Nat) : String :=
  match db_read plc start len with
  | none => ""
  | some bs => pyDecode bs

/-! ## Box decoding (read_box_data) -/

structure Product where
  spool_id : String
  material : String
  manuf_date : String
  exp_date : String
  batch : String
  shop_order : String
deriving DecidableEq

structure BoxData where
  box_lid : String
  products : List Product
deriving DecidableEq

/-- Date reformatting in read_box_data: an 8 character all-digit
string DDMMYYYY becomes DD/MM/YYYY, anything else passes through. -/
def formatDate (d : String) : String :=
  if d.length == 8 && pyIsDigitStr d then
    String.mk (d.toList.take 2) ++ "/" ++ String.mk ((d.toList.drop 2).take 2)
      ++ "/" ++ String.mk (d.toList.drop 4)
  else d

/-- Spool id of slot n: read_plc_string at the slot base offset. -/
def slotSpool (plc : Plc) (n : Nat) : String :=
  read_plc_string plc (10 + n * BYTES_PER_PRODUCT + OFFSET_SPOOL) 15

/-- The skip condition of the slot loop:
not spool_id or spool_id.isspace(). -/
def slotBlank (plc : Plc) (n : Nat) : Bool :=
  slotSpool plc n == "" || pyIsSpace (slotSpool plc n)

/-- The product assembled from slot n when it is not skipped. -/
def slotProduct (plc : Plc) (n : Nat) : Product :=
  let start := 10 + n * BYTES_PER_PRODUCT
  { spool_id := slotSpool plc n
  , material := read_plc_string plc (start + OFFSET_MATERIAL) 7
  , manuf_date := formatDate (read_plc_string plc (start + OFFSET_MANUF_DATE) 8)
  , exp_date := formatDate (read_plc_string plc (start + OFFSET_EXP_DATE) 8)
  , batch := read_plc_string plc (start + OFFSET_BATCH) 10
  , shop_order := read_plc_string plc (start + OFFSET_SHOP_ORDER) 10 }

/-- read_box_data: read the box lid, then scan all PRODUCT_COUNT slots
in order, skipping slots whose spool id is blank after trimming and
appending one product per populated slot. -/
def read_box_data (plc : Plc) : BoxData :=
  { box_lid := read_plc_string plc BOX_LID_START BOX_LID_LENGTH
  , products := (List.range PRODUCT_COUNT).filterMap (fun n =>
      if slotBlank plc n then none else some (slotProduct plc n)) }

/-! ## Excel persistence (save_to_excel) -/

/-- One row of the Production sheet, as built in save_to_excel. -/
structure Row where
  timestamp : String
  box_lid : String
  spool_id : String
  material : String
  manuf_date : String
  exp_date : String
  batch : String
  shop_order : String
deriving DecidableEq

/-- The row save_to_excel builds for one product of the box. -/
def rowOf (ts lid : String) (p : Product) : Row :=
  { timestamp := ts, box_lid := lid, spool_id := p.spool_id
  , material := p.material, manuf_date := p.manuf_date
  , exp_date := p.exp_date, batch := p.batch, shop_order := p.shop_order }

/-- The rows one call of save_to_excel appends for a box, in product
order, all carrying the cycle timestamp and the box lid. -/
def rowsFor (ts : String) (bd : BoxData) : List Row :=
  bd.products.map (rowOf ts bd.box_lid)

/-- save_to_excel: append one row per product to the Excel log
(append mode, never removing existing rows); sinkOk records whether
the Excel write raised, in which case the log is left as it was and
False is returned. -/
def save_to_excel (ts : String) (sinkOk : Bool) (bd : BoxData)
    (log : List Row) : Bool × List Row :=
  if sinkOk then (true, log ++ rowsFor ts bd) else (false, log)

/-! ## SAP XML export (create_sap_xml) -/

/-- One SCAN element of the document: its RDA child and the single
comma-joined SEELAL string. -/
structure ScanEntry where
  rda : String
  seelal : String
deriving DecidableEq

/-- The Scandata document: SCAN entries, then the START element and
the TRAYTYPE element. -/
structure SapDoc where
  scans : List ScanEntry
  start : String
  traytype : String
deriving DecidableEq

/-- The SEELAL text for one product: the six fields joined by commas
in the fixed order of the source f-string. -/
def seelalOf (p : Product) : String :=
  p.spool_id ++ "," ++ p.material ++ "," ++ p.manuf_date ++ ","
    ++ p.exp_date ++ "," ++ p.batch ++ "," ++ p.shop_order

/-- create_sap_xml: none when products is empty, otherwise one SCAN
per product plus the START constant and the TRAYTYPE count.  The box
lid is not an argument: only product data enters the document. -/
def create_sap_xml (products : List Product) : Option SapDoc :=
  if products.isEmpty then none
  else some
    { scans := products.map (fun p => { rda := RDA_VALUE, seelal := seelalOf p })
    , start := START_VALUE
    , traytype := toString products.length }

/-- The Export stage exactly as process_box invokes it:
create_sap_xml applied to the products of the box only. -/
def export_stage (bd : BoxData) : Option SapDoc :=
  create_sap_xml bd.products

/-! ## SFTP transport (upload_to_sftp) -/

/-- Environment of one upload_to_sftp call: whether SFTP_PASS is
configured, whether the local XML file exists, whether the
connect/put/stat calls complete without exception, and the byte sizes
reported by the remote stat and the local stat. -/
structure SftpEnv where
  passConfigured : Bool
  localExists : Bool
  transferOk : Bool
  remoteSize : Nat
  localSize : Nat
deriving DecidableEq

/-- upload_to_sftp: fail without a password or local file, fail when
the transfer raises, and otherwise succeed exactly when the remote
size equals the local size after the put. -/
def upload_to_sftp (e : SftpEnv) : Bool :=
  if !e.passConfigured then false
  else if !e.localExists then false
  else if !e.transferOk then false
  else e.remoteSize == e.localSize

/-! ## The process_box pipeline -/

/-- Observable external calls made during one process_box cycle, in
order: the Excel save, the XML build, the local XML save, the SFTP
upload, and each write_plc_bit on the ack bit (with the value written
and the result the write returned). -/
inductive Event where
  | saveExcel
  | createXml
  | saveXml
  | upload
  | writeAck (value : Bool) (ok : Bool)
deriving DecidableEq

/-- Environment of one process_box cycle: the PLC block, the cycle
timestamp, the outcome of the Excel sink, of save_xml_file, the SFTP
environment, and the results of the two write_plc_bit calls on the
ack bit (set true, then clear to false). -/
structure Env where
  plc : Plc
  timestamp : String
  excelOk : Bool
  saveXmlOk : Bool
  sftp : SftpEnv
  ackSetOk : Bool
  ackClearOk : Bool

/-- Result of one process_box cycle: the returned boolean, the Excel
log after the cycle, and the trace of external calls made. -/
structure CycleResult where
  success : Bool
  log : List Row
  events : List Event
deriving DecidableEq

/-- process_box: read the box, fail on an empty product list, then
save to Excel, build the XML, save it locally, upload over SFTP, and
acknowledge to the PLC, aborting at the first failing step.  The
result of the second (clearing) ack write is discarded by the
source, so the cycle returns True regardless of it. -/
def process_box (env : Env) (log : List Row) : CycleResult :=
  let bd := read_box_data env.plc
  if bd.products.isEmpty then
    { success := false, log := log, events := [] }
  else
    let r1 := save_to_excel env.timestamp env.excelOk bd log
    if !r1.1 then
      { success := false, log := r1.2, events := [Event.saveExcel] }
    else
      match create_sap_xml bd.products with
      | none =>
        { success := false, log := r1.2
        , events := [Event.saveExcel, Event.createXml] }
      | some _doc =>
        if !env.saveXmlOk then
          { success := false, log := r1.2
          , events := [Event.saveExcel, Event.createXml, Event.saveXml] }
        else if !upload_to_sftp env.sftp then
          { success := false, log := r1.2
          , events := [Event.saveExcel, Event.createXml, Event.saveXml,
                       Event.upload] }
        else if !env.ackSetOk then
          { success := false, log := r1.2
          , events := [Event.saveExcel, Event.createXml, Event.saveXml,
                       Event.upload, Event.writeAck true false] }
        else
          { success := true, log := r1.2
          , events := [Event.saveExcel, Event.createXml, Event.saveXml,
                       Event.upload, Event.writeAck true true,
                       Event.writeAck false env.ackClearOk] }

/-- The stages before the acknowledge step all succeeded: non-empty
decode, Excel persist, local XML save, and SFTP upload.  (When the
products are non-empty, create_sap_xml always yields a document.) -/
def stagesOk (env : Env) : Prop :=
  (read_box_data env.plc).products ≠ [] ∧ env.excelOk = true
    ∧ env.saveXmlOk = true ∧ upload_to_sftp env.sftp = true

instance (env : Env) : Decidable (stagesOk env) := by
  unfold stagesOk; infer_instance

/-! ## Example PLC blocks used to exhibit concrete runs -/

/-- A block of all-zero bytes: every slot decodes to a blank spool. -/
def emptyPlc : Plc := { mem := fun _ => 0, readFails := fun _ _ => false }

/-- A block with slot 0 populated (spool id "A") and all other slots
blank. -/
def plc1 : Plc :=
  { mem := fun a => if a = 10 then 65 else 0, readFails := fun _ _ => false }

/-- A block with slots 0 and 2 populated ("A" and "B"), slot 1 and all
later slots blank. -/
def plc02 : Plc :=
  { mem := fun a => if a = 10 then 65 else if a = 130 then 66 else 0
  , readFails := fun _ _ => false }

/-- A block with slot 0 populated but where the db_read of slot 0's
material field (start byte 26, length 7) raises. -/
def plcFieldFail : Plc :=
  { mem := fun a => if a = 10 then 65 else 0
  , readFails := fun s l => s == 26 && l == 7 }

/-! ## Helper lemmas -/

theorem filterMap_ite {α β : Type} (p : α → Bool) (g : α → β) (l : List α) :
    (l.filterMap (fun a => if p a then none else some (g a)))
      = (l.filter (fun a => !p a)).map g := by
  induction l with
  | nil => rfl
  | cons a l ih =>
    by_cases h : p a <;>
      simp [List.filterMap_cons, List.filter_cons, h, ih]

theorem toNat_ofNat_of_lt {n : Nat} (h : n < 128) : (Char.ofNat n).toNat = n := by
  have hv : n.isValidChar := Or.inl (by omega)
  rw [Char.ofNat, dif_pos hv]
  rfl

theorem mem_of_mem_dropTrailingWhile {c : Char} {p : Char → Bool}
    {l : List Char} (h : c ∈ dropTrailingWhile p l) : c ∈ l := by
  unfold dropTrailingWhile at h
  have h1 : c ∈ l.reverse.dropWhile p := List.mem_reverse.mp h
  exact List.mem_reverse.mp ((List.dropWhile_sublist p).mem h1)

theorem mem_of_mem_pyStrip {c : Char} {l : List Char}
    (h : c ∈ pyStrip l) : c ∈ l :=
  (List.dropWhile_sublist isPyWspace).mem (mem_of_mem_dropTrailingWhile h)

theorem ascii_of_mem_decode {c : Char} {bs : List Nat}
    (h : c ∈ decodeAsciiIgnore bs) : c.toNat < 128 := by
  unfold decodeAsciiIgnore at h
  rcases List.mem_map.mp h with ⟨b, hb, hcb⟩
  have hlt : b < 128 := by simpa using (List.of_mem_filter hb)
  rw [← hcb, toNat_ofNat_of_lt hlt]
  exact hlt

/-! ## Claims about the decoder -/

/-- C1: read_box_data scans all 20 slot positions in order; a slot
whose spool id trims to blank contributes no product and does not stop
the scan, every non-blank slot contributes exactly one product, in
slot order.  With slots 0 and 2 populated and slot 1 blank the
products list is [slot0, slot2] of length 2. -/
theorem decode_scans_slots_in_order (plc : Plc) :
    (read_box_data plc).products
        = ((List.range PRODUCT_COUNT).filter
            (fun n => !slotBlank plc n)).map (slotProduct plc)
    ∧ ((slotBlank plc 0 = false ∧ slotBlank plc 1 = true
          ∧ slotBlank plc 2 = false
          ∧ ∀ n ∈ List.range PRODUCT_COUNT, 3 ≤ n → slotBlank plc n = true) →
        (read_box_data plc).products = [slotProduct plc 0, slotProduct plc 2]
          ∧ (read_box_data plc).products.length = 2) := by
  have hmain : (read_box_data plc).products
      = ((List.range PRODUCT_COUNT).filter
          (fun n => !slotBlank plc n)).map (slotProduct plc) := by
    simp only [read_box_data]
    exact filterMap_ite _ _ _
  refine ⟨hmain, ?_⟩
  rintro ⟨h0, h1, h2, hrest⟩
  have hr : List.range PRODUCT_COUNT
      = [0, 1, 2, 3, 4, 5, 6, 7, 8, 9, 10, 11, 12, 13, 14, 15, 16, 17, 18, 19] := by
    rfl
  have h3 := hrest 3 (by decide) (by decide)
  have h4 := hrest 4 (by decide) (by decide)
  have h5 := hrest 5 (by decide) (by decide)
  have h6 := hrest 6 (by decide) (by decide)
  have h7 := hrest 7 (by decide) (by decide)
  have h8 := hrest 8 (by decide) (by decide)
  have h9 := hrest 9 (by decide) (by decide)
  have h10 := hrest 10 (by decide) (by decide)
  have h11 := hrest 11 (by decide) (by decide)
  have h12 := hrest 12 (by decide) (by decide)
  have h13 := hrest 13 (by decide) (by decide)
  have h14 := hrest 14 (by decide) (by decide)
  have h15 := hrest 15 (by decide) (by decide)
  have h16 := hrest 16 (by decide) (by decide)
  have h17 := hrest 17 (by decide) (by decide)
  have h18 := hrest 18 (by decide) (by decide)
  have h19 := hrest 19 (by decide) (by decide)
  have hlist : (read_box_data plc).products
      = [slotProduct plc 0, slotProduct plc 2] := by
    rw [hmain, hr]
    simp [List.filter_cons, h0, h1, h2, h3, h4, h5, h6, h7, h8, h9, h10,
      h11, h12, h13, h14, h15, h16, h17, h18, h19]
  exact ⟨hlist, by rw [hlist]; rfl⟩

/-- C1 witness: a concrete block with slots 0 and 2 populated and all
other slots blank decodes to exactly the two products in slot order. -/
theorem decode_scans_slots_witness :
    (read_box_data plc02).products = [slotProduct plc02 0, slotProduct plc02 2]
      ∧ (read_box_data plc02).products.length = 2 :=
  (decode_scans_slots_in_order plc02).2 (by decide)

/-- C7: during decode, an extracted date string of exactly 8 digit
characters is reformatted first2/mid2/last4, and any other string is
passed through unchanged, with no error. -/
theorem date_reformat (s : String) :
    (s.length = 8 → s.toList.all Char.isDigit = true →
        formatDate s = String.mk (s.toList.take 2) ++ "/"
          ++ String.mk ((s.toList.drop 2).take 2) ++ "/"
          ++ String.mk (s.toList.drop 4))
    ∧ (¬ (s.length = 8 ∧ s.toList.all Char.isDigit = true) →
        formatDate s = s) := by
  constructor
  · intro h1 h2
    have hlen : s.toList.length = 8 := h1
    have hne : s.toList.isEmpty = false := by
      cases hl : s.toList with
      | nil => rw [hl] at hlen; simp at hlen
      | cons c cs => rfl
    have hcond : (s.length == 8 && pyIsDigitStr s) = true := by
      simp only [pyIsDigitStr, Bool.and_eq_true, beq_iff_eq, Bool.not_eq_true']
      exact ⟨h1, hne, h2⟩
    simp [formatDate, hcond]
  · intro h
    cases hc : (s.length == 8 && pyIsDigitStr s) with
    | false => simp [formatDate, hc]
    | true =>
      exfalso
      apply h
      simp only [Bool.and_eq_true, beq_iff_eq, pyIsDigitStr] at hc
      exact ⟨hc.1, hc.2.2⟩

/-- C7 witness: "01012024" reformats to "01/01/2024" and "2024-01-01"
passes through unchanged. -/
theorem date_reformat_witness :
    formatDate "01012024" = "01/01/2024"
      ∧ formatDate "2024-01-01" = "2024-01-01" := by
  constructor
  · have h := (date_reformat "01012024").1 (by decide) (by decide)
    rw [h]; decide
  · exact (date_reformat "2024-01-01").2 (by decide)

/-- C8: field decoding is total — on a read or decode error the field
value is the empty string, otherwise the value is a best-effort string
whose characters are all valid ASCII (invalid bytes dropped); a slot
with a corrupt field is still decoded, so one bad field never aborts
the rest of the box. -/
theorem field_decode_total (plc : Plc) (start len n : Nat) :
    (plc.readFails start len = true → read_plc_string plc start len = "")
    ∧ (∃ cs : List Char, read_plc_string plc start len = String.mk cs
        ∧ ∀ c ∈ cs, c.toNat < 128)
    ∧ (n < PRODUCT_COUNT → slotBlank plc n = false →
        slotProduct plc n ∈ (read_box_data plc).products) := by
  refine ⟨?_, ?_, ?_⟩
  · intro h
    simp [read_plc_string, db_read, h]
  · cases hf : plc.readFails start len with
    | true =>
      exact ⟨[], by simp [read_plc_string, db_read, hf], by simp⟩
    | false =>
      refine ⟨pyStrip (rstripNull (decodeAsciiIgnore
        ((List.range len).map (fun i => plc.mem (start + i) % 256)))), ?_, ?_⟩
      · simp [read_plc_string, db_read, hf, pyDecode]
      · intro c hc
        exact ascii_of_mem_decode
          (mem_of_mem_dropTrailingWhile (mem_of_mem_pyStrip hc))
  · intro hn hb
    simp only [read_box_data]
    exact List.mem_filterMap.mpr ⟨n, List.mem_range.mpr hn, by simp [hb]⟩

/-- C8 witness: on a block where the slot-0 material read raises, the
field decodes to "" and slot 0 still appears among the products. -/
theorem field_decode_total_witness :
    read_plc_string plcFieldFail 26 7 = ""
      ∧ slotProduct plcFieldFail 0 ∈ (read_box_data plcFieldFail).products := by
  have h := field_decode_total plcFieldFail 26 7 0
  exact ⟨h.1 (by decide), h.2.2 (by decide) (by decide)⟩

/-! ## Pipeline helper lemmas and example environments -/

theorem isEmpty_false {α : Type} {l : List α} (h : l ≠ []) :
    l.isEmpty = false := by
  cases l with
  | nil => exact absurd rfl h
  | cons a t => rfl

theorem create_sap_xml_of_ne {ps : List Product} (h : ps ≠ []) :
    create_sap_xml ps = some
      { scans := ps.map (fun p => { rda := RDA_VALUE, seelal := seelalOf p })
      , start := START_VALUE
      , traytype := toString ps.length } := by
  simp [create_sap_xml, isEmpty_false h]

/-- An SFTP environment where every call succeeds and the sizes
match. -/
def sftpAllOk : SftpEnv :=
  { passConfigured := true, localExists := true, transferOk := true
  , remoteSize := 1, localSize := 1 }

/-- An SFTP environment where the transfer raises. -/
def sftpDown : SftpEnv :=
  { passConfigured := true, localExists := true, transferOk := false
  , remoteSize := 1, localSize := 1 }

/-- A cycle over an empty box with every sink healthy. -/
def envEmptyBox : Env :=
  { plc := emptyPlc, timestamp := "t", excelOk := true, saveXmlOk := true
  , sftp := sftpAllOk, ackSetOk := true, ackClearOk := true }

/-- A cycle with one product where the Excel sink fails. -/
def envExcelFail : Env :=
  { plc := plc1, timestamp := "t", excelOk := false, saveXmlOk := true
  , sftp := sftpAllOk, ackSetOk := true, ackClearOk := true }

/-! ## Claims about the pipeline -/

/-- C2: a cycle whose decode yields an empty products list fails
before Persist: no sink call and no ack write happens, the log is
untouched, and process_box returns failure. -/
theorem empty_box_aborts (env : Env) (log : List Row)
    (h : (read_box_data env.plc).products = []) :
    process_box env log = { success := false, log := log, events := [] } := by
  simp [process_box, h]

/-- C2 witness: the all-zero block decodes to an empty box and the
cycle performs no external call. -/
theorem empty_box_aborts_witness :
    process_box envEmptyBox []
      = { success := false, log := [], events := [] } :=
  empty_box_aborts envEmptyBox [] (by decide)

/-- C3: if the Excel persist step fails, the XML build, the local
save, the upload and the ack writes are never invoked and the cycle
returns failure. -/
theorem persist_failure_shortcircuits (env : Env) (log : List Row)
    (hne : (read_box_data env.plc).products ≠ [])
    (hex : env.excelOk = false) :
    process_box env log
      = { success := false, log := log, events := [Event.saveExcel] } := by
  have hni := isEmpty_false hne
  simp [process_box, hni, save_to_excel, hex]

/-- C3 witness: a concrete one-product cycle with a failing Excel sink
stops after the Excel attempt. -/
theorem persist_failure_shortcircuits_witness :
    process_box envExcelFail []
      = { success := false, log := [], events := [Event.saveExcel] } :=
  persist_failure_shortcircuits envExcelFail [] (by decide) rfl

/-- A fully successful cycle with one product. -/
def envAllOk : Env :=
  { plc := plc1, timestamp := "t", excelOk := true, saveXmlOk := true
  , sftp := sftpAllOk, ackSetOk := true, ackClearOk := true }

/-- A cycle with one product where every stage succeeds but the
write_plc_bit call that sets the ack bit fails. -/
def envAckSetFail : Env :=
  { plc := plc1, timestamp := "t", excelOk := true, saveXmlOk := true
  , sftp := sftpAllOk, ackSetOk := false, ackClearOk := true }

/-- C4 counterexample: with every earlier stage succeeding but the
ack-set write failing, all earlier stages of the cycle succeeded yet
no clearing write is ever performed (so no complete true-then-false
pulse occurs), the only ack write happens on this failing path, and
the cycle returns failure — refuting the claimed iff. -/
theorem ack_pulse_iff_counterexample :
    stagesOk envAckSetFail
    ∧ (process_box envAckSetFail []).events
        = [Event.saveExcel, Event.createXml, Event.saveXml, Event.upload,
           Event.writeAck true false]
    ∧ Event.writeAck false true ∉ (process_box envAckSetFail []).events
    ∧ Event.writeAck false false ∉ (process_box envAckSetFail []).events
    ∧ (process_box envAckSetFail []).success = false := by
  decide

/-- C4 amended: the complete ack pulse (write true, then write false)
occurs iff all earlier stages succeeded and the ack-set write itself
reported success; a cycle that failed at an earlier stage performs no
ack-bit write at all, and the success path is the only one producing
the pulse, in the order true then false. -/
theorem ack_pulse_iff (env : Env) (log : List Row) :
    (Event.writeAck false env.ackClearOk ∈ (process_box env log).events
        ↔ stagesOk env ∧ env.ackSetOk = true)
    ∧ (stagesOk env ∧ env.ackSetOk = true →
        (process_box env log).events
          = [Event.saveExcel, Event.createXml, Event.saveXml, Event.upload,
             Event.writeAck true true, Event.writeAck false env.ackClearOk])
    ∧ (¬ stagesOk env →
        ∀ v o : Bool, Event.writeAck v o ∉ (process_box env log).events) := by
  by_cases hne : (read_box_data env.plc).products = []
  · have hpb : process_box env log
        = { success := false, log := log, events := [] } := by
      simp [process_box, hne]
    have hns : ¬ stagesOk env := fun hs => hs.1 hne
    rw [hpb]
    refine ⟨?_, ?_, ?_⟩
    · constructor
      · intro h; exact absurd h (List.not_mem_nil _)
      · rintro ⟨hs, _⟩; exact absurd hs hns
    · rintro ⟨hs, _⟩; exact absurd hs hns
    · intro _ v o; exact List.not_mem_nil _
  · have hni := isEmpty_false hne
    have hxml := create_sap_xml_of_ne hne
    cases hex : env.excelOk with
    | false =>
      have hpb : process_box env log
          = { success := false, log := log, events := [Event.saveExcel] } := by
        simp [process_box, hni, save_to_excel, hex]
      have hns : ¬ stagesOk env := fun hs => by simp [hs.2.1] at hex
      rw [hpb]
      refine ⟨?_, ?_, ?_⟩
      · constructor
        · intro h; simp at h
        · rintro ⟨hs, _⟩; exact absurd hs hns
      · rintro ⟨hs, _⟩; exact absurd hs hns
      · intro _ v o; simp
    | true =>
      cases hsx : env.saveXmlOk with
      | false =>
        have hpb : process_box env log
            = { success := false, log := log ++ rowsFor env.timestamp (read_box_data env.plc)
              , events := [Event.saveExcel, Event.createXml, Event.saveXml] } := by
          simp [process_box, hni, save_to_excel, hex, hxml, hsx]
        have hns : ¬ stagesOk env := fun hs => by simp [hs.2.2.1] at hsx
        rw [hpb]
        refine ⟨?_, ?_, ?_⟩
        · constructor
          · intro h; simp at h
          · rintro ⟨hs, _⟩; exact absurd hs hns
        · rintro ⟨hs, _⟩; exact absurd hs hns
        · intro _ v o; simp
      | true =>
        cases hu : upload_to_sftp env.sftp with
        | false =>
          have hpb : process_box env log
              = { success := false
                , log := log ++ rowsFor env.timestamp (read_box_data env.plc)
                , events := [Event.saveExcel, Event.createXml, Event.saveXml,
                             Event.upload] } := by
            simp [process_box, hni, save_to_excel, hex, hxml, hsx, hu]
          have hns : ¬ stagesOk env := fun hs => by simp [hs.2.2.2] at hu
          rw [hpb]
          refine ⟨?_, ?_, ?_⟩
          · constructor
            · intro h; simp at h
            · rintro ⟨hs, _⟩; exact absurd hs hns
          · rintro ⟨hs, _⟩; exact absurd hs hns
          · intro _ v o; simp
        | true =>
          have hs : stagesOk env := ⟨hne, hex, hsx, hu⟩
          cases has : env.ackSetOk with
          | false =>
            have hpb : process_box env log
                = { success := false
                  , log := log ++ rowsFor env.timestamp (read_box_data env.plc)
                  , events := [Event.saveExcel, Event.createXml, Event.saveXml,
                               Event.upload, Event.writeAck true false] } := by
              simp [process_box, hni, save_to_excel, hex, hxml, hsx, hu, has]
            rw [hpb]
            refine ⟨?_, ?_, ?_⟩
            · constructor
              · intro h; simp at h
              · rintro ⟨_, hset⟩; simp_all
            · rintro ⟨_, hset⟩; simp_all
            · intro hcon; exact absurd hs hcon
          | true =>
            have hpb : process_box env log
                = { success := true
                  , log := log ++ rowsFor env.timestamp (read_box_data env.plc)
                  , events := [Event.saveExcel, Event.createXml, Event.saveXml,
                               Event.upload, Event.writeAck true true,
                               Event.writeAck false env.ackClearOk] } := by
              simp [process_box, hni, save_to_excel, hex, hxml, hsx, hu, has]
            rw [hpb]
            refine ⟨?_, ?_, ?_⟩
            · constructor
              · intro _; exact ⟨hs, rfl⟩
              · intro _; simp
            · intro _; rfl
            · intro hcon; exact absurd hs hcon

/-- C4 amended witness: on a concrete fully-successful cycle the trace
is exactly the five sink calls followed by the true-then-false ack
pulse. -/
theorem ack_pulse_iff_witness :
    (process_box envAllOk []).events
      = [Event.saveExcel, Event.createXml, Event.saveXml, Event.upload,
         Event.writeAck true true, Event.writeAck false true] :=
  (ack_pulse_iff envAllOk []).2.1 ⟨by decide, rfl⟩

/-- A cycle with one product where the put call reports success but
the remote size differs from the local size. -/
def envSizeMismatch : Env :=
  { plc := plc1, timestamp := "t", excelOk := true, saveXmlOk := true
  , sftp := { passConfigured := true, localExists := true, transferOk := true
            , remoteSize := 3, localSize := 7 }
  , ackSetOk := true, ackClearOk := true }

/-- C5: when the transfer call completes but the remote file size
differs from the local one, upload_to_sftp reports failure, the cycle
fails, and no ack write follows. -/
theorem transport_size_mismatch_fails (env : Env) (log : List Row)
    (hp : env.sftp.passConfigured = true)
    (hl : env.sftp.localExists = true)
    (ht : env.sftp.transferOk = true)
    (hs : env.sftp.remoteSize ≠ env.sftp.localSize) :
    upload_to_sftp env.sftp = false
    ∧ (process_box env log).success = false
    ∧ ∀ v o : Bool, Event.writeAck v o ∉ (process_box env log).events := by
  have hu : upload_to_sftp env.sftp = false := by
    simp [upload_to_sftp, hp, hl, ht, hs]
  refine ⟨hu, ?_⟩
  by_cases hne : (read_box_data env.plc).products = []
  · have hpb : process_box env log
        = { success := false, log := log, events := [] } := by
      simp [process_box, hne]
    rw [hpb]
    exact ⟨rfl, fun v o => List.not_mem_nil _⟩
  · have hni := isEmpty_false hne
    have hxml := create_sap_xml_of_ne hne
    cases hex : env.excelOk with
    | false =>
      have hpb : process_box env log
          = { success := false, log := log, events := [Event.saveExcel] } := by
        simp [process_box, hni, save_to_excel, hex]
      rw [hpb]
      exact ⟨rfl, fun v o => by simp⟩
    | true =>
      cases hsx : env.saveXmlOk with
      | false =>
        have hpb : process_box env log
            = { success := false
              , log := log ++ rowsFor env.timestamp (read_box_data env.plc)
              , events := [Event.saveExcel, Event.createXml, Event.saveXml] } := by
          simp [process_box, hni, save_to_excel, hex, hxml, hsx]
        rw [hpb]
        exact ⟨rfl, fun v o => by simp⟩
      | true =>
        have hpb : process_box env log
            = { success := false
              , log := log ++ rowsFor env.timestamp (read_box_data env.plc)
              , events := [Event.saveExcel, Event.createXml, Event.saveXml,
                           Event.upload] } := by
          simp [process_box, hni, save_to_excel, hex, hxml, hsx, hu]
        rw [hpb]
        exact ⟨rfl, fun v o => by simp⟩

/-- C5 witness: a concrete cycle whose put succeeds but whose remote
size (3) differs from the local size (7) fails with no ack write. -/
theorem transport_size_mismatch_witness :
    upload_to_sftp envSizeMismatch.sftp = false
    ∧ (process_box envSizeMismatch []).success = false
    ∧ ∀ v o : Bool,
        Event.writeAck v o ∉ (process_box envSizeMismatch []).events :=
  transport_size_mismatch_fails envSizeMismatch [] rfl rfl rfl (by decide)

/-- A one-element product list for concrete export runs. -/
def prodA : Product :=
  { spool_id := "SP001", material := "MAT1", manuf_date := "01/01/2024"
  , exp_date := "30/06/2024", batch := "B01", shop_order := "SO1" }

/-- C6: for a non-empty products list the exported document has one
SCAN entry per product, each carrying the constant RDA marker and the
comma-joined six product fields in fixed order, plus the constant
START trailer and the TRAYTYPE field equal to the decimal count; the
box lid never enters the document (the export depends only on the
products). -/
theorem export_schema (ps : List Product) (hne : ps ≠ []) :
    (∃ doc, create_sap_xml ps = some doc
      ∧ doc.scans = ps.map (fun p =>
          { rda := RDA_VALUE
          , seelal := p.spool_id ++ "," ++ p.material ++ "," ++ p.manuf_date
              ++ "," ++ p.exp_date ++ "," ++ p.batch ++ "," ++ p.shop_order })
      ∧ doc.scans.length = ps.length
      ∧ doc.start = START_VALUE
      ∧ doc.traytype = toString ps.length)
    ∧ ∀ lid1 lid2 : String,
        export_stage { box_lid := lid1, products := ps }
          = export_stage { box_lid := lid2, products := ps } := by
  refine ⟨⟨_, create_sap_xml_of_ne hne, rfl, by simp, rfl, rfl⟩, fun _ _ => rfl⟩

/-- C6 witness: the document for the single product SP001 has one
entry with RDA "1" and the six comma-joined fields, START "R" and
TRAYTYPE "1", independent of any box lid. -/
theorem export_schema_witness :
    (∃ doc, create_sap_xml [prodA] = some doc
      ∧ doc.scans = [prodA].map (fun p =>
          { rda := RDA_VALUE
          , seelal := p.spool_id ++ "," ++ p.material ++ "," ++ p.manuf_date
              ++ "," ++ p.exp_date ++ "," ++ p.batch ++ "," ++ p.shop_order })
      ∧ doc.scans.length = 1
      ∧ doc.start = START_VALUE
      ∧ doc.traytype = toString 1)
    ∧ export_stage { box_lid := "BOX1", products := [prodA] }
        = export_stage { box_lid := "BOX2", products := [prodA] } := by
  have h := export_schema [prodA] (by decide)
  exact ⟨h.1, h.2 "BOX1" "BOX2"⟩

/-- Every field of an Excel row except the cycle timestamp: what a
reprocessed box writes identically on retry. -/
def rowFields (r : Row) :
    String × String × String × String × String × String × String :=
  (r.box_lid, r.spool_id, r.material, r.manuf_date, r.exp_date,
    r.batch, r.shop_order)

theorem process_box_log_eq (env : Env) (log : List Row) :
    (process_box env log).log
      = if ((read_box_data env.plc).products.isEmpty || !env.excelOk) then log
        else log ++ rowsFor env.timestamp (read_box_data env.plc) := by
  by_cases hne : (read_box_data env.plc).products = []
  · simp [process_box, hne]
  · have hni := isEmpty_false hne
    have hxml := create_sap_xml_of_ne hne
    cases hex : env.excelOk with
    | false => simp [process_box, hni, save_to_excel, hex]
    | true =>
      cases hsx : env.saveXmlOk <;>
        cases hu : upload_to_sftp env.sftp <;>
          cases has : env.ackSetOk <;>
            simp [process_box, hni, save_to_excel, hex, hxml, hsx, hu, has]

/-- The first cycle: one product, Excel succeeds, transfer raises so
the Transport stage fails after Persist wrote its rows. -/
def envRetry1 : Env :=
  { plc := plc1, timestamp := "t1", excelOk := true, saveXmlOk := true
  , sftp := sftpDown, ackSetOk := true, ackClearOk := true }

/-- The reprocessing cycle for the same box with every sink healthy. -/
def envRetry2 : Env :=
  { plc := plc1, timestamp := "t2", excelOk := true, saveXmlOk := true
  , sftp := sftpAllOk, ackSetOk := true, ackClearOk := true }

/-- C9: no stage ever removes rows from the Excel log (the prior log
is always a prefix of the new one); whenever Persist runs and
succeeds its rows stay in the log even if a later stage fails, and
reprocessing the same box appends one more copy of the same rows,
identical except for the cycle timestamp. -/
theorem durable_log_append_only (env env2 : Env) (log : List Row) :
    (∃ tail, (process_box env log).log = log ++ tail)
    ∧ ((read_box_data env.plc).products ≠ [] → env.excelOk = true →
        (process_box env log).log
          = log ++ rowsFor env.timestamp (read_box_data env.plc))
    ∧ ((read_box_data env.plc).products ≠ [] → env.excelOk = true →
        env2.plc = env.plc → env2.excelOk = true →
        (process_box env2 (process_box env log).log).log
          = log ++ rowsFor env.timestamp (read_box_data env.plc)
              ++ rowsFor env2.timestamp (read_box_data env.plc)
        ∧ (rowsFor env2.timestamp (read_box_data env.plc)).map rowFields
            = (rowsFor env.timestamp (read_box_data env.plc)).map rowFields) := by
  have h1 := process_box_log_eq env log
  refine ⟨?_, ?_, ?_⟩
  · cases hc : ((read_box_data env.plc).products.isEmpty || !env.excelOk) with
    | true => exact ⟨[], by simp [h1, hc]⟩
    | false =>
      exact ⟨rowsFor env.timestamp (read_box_data env.plc), by simp [h1, hc]⟩
  · intro hne hex
    have hc : ((read_box_data env.plc).products.isEmpty || !env.excelOk) = false := by
      simp [isEmpty_false hne, hex]
    simp [h1, hc]
  · intro hne hex h2p h2e
    have hc : ((read_box_data env.plc).products.isEmpty || !env.excelOk) = false := by
      simp [isEmpty_false hne, hex]
    have hl1 : (process_box env log).log
        = log ++ rowsFor env.timestamp (read_box_data env.plc) := by
      simp [h1, hc]
    have hne2 : (read_box_data env2.plc).products ≠ [] := by
      rw [h2p]; exact hne
    have hc2 : ((read_box_data env2.plc).products.isEmpty || !env2.excelOk) = false := by
      simp [isEmpty_false hne2, h2e]
    have h2 := process_box_log_eq env2 (process_box env log).log
    constructor
    · rw [h2]
      simp only [hc2, Bool.false_eq_true, if_false]
      rw [hl1, h2p, List.append_assoc]
    · simp only [rowsFor, List.map_map]
      rfl

/-- C9 witness: a concrete failed-transport cycle leaves its rows in
the log and reprocessing the same box appends a second copy of the
rows, equal on every field but the timestamp. -/
theorem durable_log_append_only_witness :
    (process_box envRetry2 (process_box envRetry1 []).log).log
      = [] ++ rowsFor "t1" (read_box_data plc1) ++ rowsFor "t2" (read_box_data plc1)
    ∧ (rowsFor "t2" (read_box_data plc1)).map rowFields
        = (rowsFor "t1" (read_box_data plc1)).map rowFields :=
  (durable_log_append_only envRetry1 envRetry2 []).2.2 (by decide) rfl rfl rfl

/-- A cycle with one product where every stage and the ack-set write
succeed but the ack-clearing write fails. -/
def envAckClearFail : Env :=
  { plc := plc1, timestamp := "t", excelOk := true, saveXmlOk := true
  , sftp := sftpAllOk, ackSetOk := true, ackClearOk := false }

/-- C10: the cycle outcome depends only on the stages up to the
ack-set write; the result of the second write that clears the ack bit
is discarded, so process_box still returns success when that clearing
write fails (the trace records the failed clearing write). -/
theorem ack_clear_result_ignored (env : Env) (log : List Row)
    (hne : (read_box_data env.plc).products ≠ [])
    (hex : env.excelOk = true) (hsx : env.saveXmlOk = true)
    (hu : upload_to_sftp env.sftp = true) (has : env.ackSetOk = true)
    (hcl : env.ackClearOk = false) :
    (process_box env log).success = true
    ∧ (process_box env log).events
        = [Event.saveExcel, Event.createXml, Event.saveXml, Event.upload,
           Event.writeAck true true, Event.writeAck false false] := by
  have hni := isEmpty_false hne
  have hxml := create_sap_xml_of_ne hne
  constructor <;>
    simp [process_box, hni, save_to_excel, hex, hxml, hsx, hu, has, hcl]

/-- C10 witness: a concrete cycle whose ack-clearing write fails still
returns success, with the failed clearing write last in the trace. -/
theorem ack_clear_result_ignored_witness :
    (process_box envAckClearFail []).success = true
    ∧ (process_box envAckClearFail []).events
        = [Event.saveExcel, Event.createXml, Event.saveXml, Event.upload,
           Event.writeAck true true, Event.writeAck false false] :=
  ack_clear_result_ignored envAckClearFail [] (by decide) rfl rfl rfl rfl rfl

end BarcodeReader
